import Mathlib

/-!
Verification development for the `holoviews_sankey` package
(`holoviews_sankey/holoviews_sankey.py` and `holoviews_sankey/__main__.py`).

The Python source is shallowly embedded as follows.

* An edge table (`pandas.DataFrame`) is a list of rows; a row is a list of
  cells; a cell is either a text cell (node names) or an exact rational
  number (magnitudes).
* The external collaborators (selenium webdriver, the HoloViews/Bokeh
  rendering engine, the file system) are black boxes, per the design's
  scope; each fallible call site is given an outcome by an `ExtEnv`
  record, and each performed call is recorded as an `Event` in a trace.
  Functions return the trace of events they emitted together with either
  the resulting Bokeh plot state or the uncaught Python exception
  (`Except Err Plot`).
* `str(title)` is modelled as the identity on `String` (titles are
  strings); Python `None` arguments are `Option.none`; the path
  separator is modelled as the POSIX `/`.
-/

namespace HoloviewsSankey

/-- Cell of an edge table: a text cell (e.g. the `From`/`To` node names) or a
numeric cell (the `Value` magnitudes), modelling one entry of the pandas
DataFrame handed to `create_and_save_sankey`. -/
inductive Cell where
  | str (s : String)
  | num (q : Rat)
deriving DecidableEq

/-- Row of an edge table. -/
abbrev Row := List Cell

/-- Edge table: an ordered sequence of rows, embedding the DataFrame. -/
abbrev EdgeTable := List Row

/-- Result of the elementwise pandas comparison `cell == 0`: a text cell never
equals `0`, a numeric cell equals `0` iff its value is zero. -/
def cellIsZero : Cell → Bool
  | Cell.str _ => false
  | Cell.num q => q == 0

/-- Row predicate of the boolean mask `(edges != 0).all(axis=1)`. -/
def rowAllNonzero (r : Row) : Bool :=
  r.all (fun c => !cellIsZero c)

/-- Embedding of the sanitization step
`edges = edges.loc[(edges != 0).all(axis=1)]`
(holoviews_sankey.py line 191): keep exactly the rows in which every column
is non-zero, in their original order. -/
def sanitize (edges : EdgeTable) : EdgeTable :=
  edges.filter rowAllNonzero

/-- C5: the sanitization step performed before diagram construction removes
exactly those rows in which some column's value equals zero, and preserves
the relative order of all remaining rows (the output is a sublist of the
input, and a row is kept iff it occurs in the input with no zero cell). -/
theorem sanitize_removes_exactly_zero_rows (t : EdgeTable) :
    List.Sublist (sanitize t) t ∧
    (∀ r, r ∈ sanitize t ↔ r ∈ t ∧ ∀ c ∈ r, cellIsZero c = false) := by
  constructor
  · exact List.filter_sublist t
  · intro r
    simp [sanitize, rowAllNonzero, List.mem_filter, List.all_eq_true]

/-- Concrete edge table exercising the sanitizer: the middle row has a zero
magnitude and every other cell is non-zero. -/
def sanitizeExample : EdgeTable :=
  [[Cell.str "A", Cell.str "B", Cell.num 2],
   [Cell.str "A", Cell.str "C", Cell.num 0],
   [Cell.str "B", Cell.str "C", Cell.num 1]]

/-- Witness for C5: on `sanitizeExample`, the sanitized table is a sublist of
the input, the all-non-zero first row is kept, and the zero-magnitude row is
dropped. -/
theorem sanitize_removes_exactly_zero_rows_witness :
    List.Sublist (sanitize sanitizeExample) sanitizeExample ∧
    [Cell.str "A", Cell.str "B", Cell.num 2] ∈ sanitize sanitizeExample ∧
    [Cell.str "A", Cell.str "C", Cell.num 0] ∉ sanitize sanitizeExample := by
  refine ⟨(sanitize_removes_exactly_zero_rows sanitizeExample).1, ?_, ?_⟩
  · exact ((sanitize_removes_exactly_zero_rows sanitizeExample).2 _).mpr
      ⟨by decide, by decide⟩
  · intro hmem
    have h := ((sanitize_removes_exactly_zero_rows sanitizeExample).2 _).mp hmem
    exact absurd (h.2 (Cell.num 0) (by decide)) (by decide)

/-- Nearest integer to a rational with ties going to the even integer,
matching Python's `round` on exact values (banker's rounding). -/
def roundHalfEven (q : Rat) : Int :=
  let n := q.floor
  let frac := q - (n : Rat)
  if frac < 1/2 then n
  else if 1/2 < frac then n + 1
  else if n % 2 = 0 then n else n + 1

/-- Python `round(x, d)` on exact rationals: banker's rounding to `d` decimal
places (`d` may be negative, rounding to tens, hundreds, ...). -/
def pyRound (x : Rat) (d : Int) : Rat :=
  if 0 ≤ d then
    (roundHalfEven (x * (10 : Rat) ^ d.toNat) : Rat) / (10 : Rat) ^ d.toNat
  else
    (roundHalfEven (x / (10 : Rat) ^ (-d).toNat) : Rat) * (10 : Rat) ^ (-d).toNat

/-- Return value of the edge-label formatter `fmt`: Python returns either the
number object itself (`return x`) or a formatted string. -/
inductive FmtResult where
  | raw (x : Rat)
  | text (s : String)
deriving DecidableEq

/-- Whether a formatter result is the raw (unformatted) number. -/
def FmtResult.isRaw : FmtResult → Bool
  | FmtResult.raw _ => true
  | FmtResult.text _ => false

/-- Rendering of the `unit` argument inside an f-string: Python renders the
object `None` as the text `None`, and a string as itself. -/
def optUnitStr : Option String → String
  | none => "None"
  | some u => u

/-- Embedding of the nested formatter `fmt` of `create_and_save_sankey`
(holoviews_sankey.py lines 193-203):

* if `decimals` is not `None`, `x` is first replaced by `round(x, decimals)`;
* if `decimals is None and unit is None`, the raw number is returned;
* otherwise if `decimals is None` (so `unit` is a string, possibly empty),
  the string `f'{x} {unit}'` is returned;
* otherwise the locale-aware string `f'{x:n} {unit}'` is returned.

The two external number-to-text renderings (`f'{x}'`, i.e. Python `str`, and
the locale-dependent `f'{x:n}'`) are parameters `sstr` and `nstr`. -/
def fmt (sstr nstr : Rat → String) (decimals : Option Int) (unit : Option String)
    (x : Rat) : FmtResult :=
  let x1 := match decimals with
    | some d => pyRound x d
    | none => x
  match decimals, unit with
  | none, none => FmtResult.raw x1
  | none, some u => FmtResult.text (sstr x1 ++ " " ++ u)
  | some _, u => FmtResult.text (nstr x1 ++ " " ++ optUnitStr u)

/-- Default rendering of a rational as text, standing in for Python `str`. -/
def pyNumStr (q : Rat) : String := toString q

/-- Counterexample for C3: with `decimals=None` and `unit=''` (the empty
string, not `None`), `fmt` does not return the raw number `x` unchanged: at
`x = 3` it returns the formatted string `f'{x} {unit}'`, because the code
tests `unit is None`, which the empty string fails. -/
theorem fmt_empty_unit_counterexample :
    fmt pyNumStr pyNumStr none (some "") 3
      = FmtResult.text (pyNumStr 3 ++ " ") ∧
    (fmt pyNumStr pyNumStr none (some "") 3).isRaw = false := by
  exact ⟨rfl, rfl⟩

/-- C3 (amended): for every numeric `x`, the edge-label formatter invoked with
`decimals=None` and `unit=None` returns `x` itself unchanged (the raw number,
not a formatted string); and with `decimals=None` and any string unit `u`
(including the empty string) it returns the unrounded number rendered to text
with a space and `u` appended. -/
theorem fmt_decimals_none_spec (sstr nstr : Rat → String) (x : Rat) :
    fmt sstr nstr none none x = FmtResult.raw x ∧
    ∀ u : String, fmt sstr nstr none (some u) x
      = FmtResult.text (sstr x ++ " " ++ u) := by
  exact ⟨rfl, fun u => rfl⟩

/-- Uncaught Python exceptions that `create_and_save_sankey` can let escape:
failure of the HoloViews/Bokeh build (`hv.extension` / `hv.Sankey(...).options`
/ `get_plot`, lines 173-226), failure of `str(title)` while setting a title
(lines 229 and 255), failure of `os.makedirs` (line 239), and failure of
`output_file` (line 262). -/
inductive Err where
  | buildError
  | strTitleError
  | mkdirError
  | outputFileError
deriving DecidableEq

/-- Mutable display state of the Bokeh plot object `bkplot` that the source
reads or writes: title text, sizing mode, output backend, and the toolbar
settings (lines 222-226, 228-234, 246, 255-256). `none` models Python
`None` / the engine default. -/
structure Plot where
  titleText : String
  sizingMode : Option String
  outputBackend : String
  toolbarLocation : Option String
  activeDrag : Option String
  activeScroll : Option String
deriving DecidableEq

deriving instance DecidableEq for Except

/-- Observable calls into the external collaborators, in the order the source
performs them. A webdriver handle is identified by a `Nat`; the handle passed
to the png/svg exporters is recorded so that sharing can be stated. -/
inductive Event where
  | acquire (h : Nat)
  | acquireFailLogged
  | build (t : EdgeTable)
  | mkdirFor (fn : String)
  | exportPng (file : String) (plotTitle : String) (driver : Option Nat)
  | pngFailLogged
  | exportSvg (file : String) (plotTitle : String) (driver : Option Nat)
  | svgFailLogged
  | quit (h : Nat)
  | outputFile (file : String) (pageTitle : String)
  | showPlot
  | logError (sheet : String) (e : Err)
  | page (plots : List Plot) (ncols : Nat) (sizing : String)
deriving DecidableEq

/-- Outcomes of the fallible external call sites for one
`create_and_save_sankey` call. `acquireRes = some h` means
`webdriver.create_firefox_webdriver()` returns handle `h`; `none` means it
raises (which the source catches, logs and replaces by `web_driver = None`).
`strTitleOk = false` means `str(title)` raises when evaluated.
`dirExists` is the result of the `os.path.exists` check on the output
directory; `mkdirOk`, `pngOk`, `svgOk`, `outputFileOk` tell whether
`os.makedirs`, `export_png`, `export_svgs` and `output_file` succeed.
`initialTitle` is the title text the rendering engine gives the fresh plot. -/
structure ExtEnv where
  acquireRes : Option Nat
  buildOk : Bool
  strTitleOk : Bool
  dirExists : Bool
  mkdirOk : Bool
  pngOk : Bool
  svgOk : Bool
  outputFileOk : Bool
  initialTitle : String
deriving DecidableEq

/-- Arguments of `create_and_save_sankey` (holoviews_sankey.py lines
121-127). Style options that are merely forwarded to the rendering engine
are kept for signature fidelity but are inert in the model. `filename = none`
embeds `filename=None`; `title` is a string (Python applies `str` to it). -/
structure SankeyArgs where
  filename : Option String
  title : String
  title_html : String
  edge_color_index : String
  show_plot : Bool
  palette : Option (List String)
  decimals : Option Int
  unit : Option String
  width : Nat
  height : Nat
  fontsize : Nat
  label_text_font_size : String
  node_width : Nat
  node_padding : Nat
  export_title : Bool
  toolbar_location : Option String
  title_max_chars : Option Nat
deriving DecidableEq

/-- Events of the guarded webdriver acquisition (lines 160-171): on success
the handle is recorded, on failure the exception is caught and logged and the
handle is `None`. -/
def acquireEvents (env : ExtEnv) : List Event :=
  match env.acquireRes with
  | some h => [Event.acquire h]
  | none => [Event.acquireFailLogged]

/-- Events of `if web_driver is not None: web_driver.quit()`
(lines 251-252). -/
def quitWebdriverEvents : Option Nat → List Event
  | some h => [Event.quit h]
  | none => []

/-- State of `bkplot` after lines 222-234: the renderer-produced plot with
toolbar location applied and drag/scroll disabled, then, when
`export_title is True`, the title set to `str(title)` and truncated to the
first `title_max_chars` characters when that argument is not `None`. -/
def staticExportPlot (env : ExtEnv) (a : SankeyArgs) : Plot :=
  let p0 : Plot :=
    { titleText := env.initialTitle, sizingMode := none,
      outputBackend := "canvas", toolbarLocation := a.toolbar_location,
      activeDrag := none, activeScroll := none }
  if a.export_title then
    let p1 := { p0 with titleText := a.title }
    match a.title_max_chars with
    | some m => { p1 with titleText := p1.titleText.take m }
    | none => p1
  else p0

/-- Embedding of lines 236-267 of `create_and_save_sankey`: the
filename-guarded directory creation and png/svg exports (each export in its
own `try`/`except` that logs and continues), the webdriver quit, the
unconditional final title and sizing-mode assignment, the filename-guarded
`output_file` registration (with `title_html` defaulting to `title` when it
is the empty string), and the optional `show`. Returns the events emitted
from this point on, and either the final plot or the uncaught exception. -/
def exportAndFinish (env : ExtEnv) (a : SankeyArgs) (driver : Option Nat)
    (p2 : Plot) : List Event × Except Err Plot :=
  match a.filename with
  | some fn =>
    if env.dirExists = false ∧ env.mkdirOk = false then
      ([], Except.error Err.mkdirError)
    else
      let evM := if env.dirExists then [] else [Event.mkdirFor fn]
      let evP := if env.pngOk
        then [Event.exportPng (fn ++ ".png") p2.titleText driver]
        else [Event.pngFailLogged]
      let p3 := { p2 with outputBackend := "svg" }
      let evS := if env.svgOk
        then [Event.exportSvg (fn ++ ".svg") p3.titleText driver]
        else [Event.svgFailLogged]
      let evQ := quitWebdriverEvents driver
      if env.strTitleOk = false then
        (evM ++ evP ++ evS ++ evQ, Except.error Err.strTitleError)
      else
        let p4 := { p3 with titleText := a.title,
                            sizingMode := some "stretch_width" }
        if env.outputFileOk = false then
          (evM ++ evP ++ evS ++ evQ, Except.error Err.outputFileError)
        else
          let th := if a.title_html = "" then a.title else a.title_html
          let evSh := if a.show_plot then [Event.showPlot] else []
          (evM ++ evP ++ evS ++ evQ ++ [Event.outputFile (fn ++ ".html") th]
             ++ evSh,
           Except.ok p4)
  | none =>
    let evQ := quitWebdriverEvents driver
    if env.strTitleOk = false then
      (evQ, Except.error Err.strTitleError)
    else
      let p4 := { p2 with titleText := a.title,
                          sizingMode := some "stretch_width" }
      let evSh := if a.show_plot then [Event.showPlot] else []
      (evQ ++ evSh, Except.ok p4)

/-- Embedding of `create_and_save_sankey` (holoviews_sankey.py lines
121-267): guarded webdriver acquisition; sanitization of the edge table;
the HoloViews build producing the plot (uncaught on failure — note that the
acquired webdriver is then never quit); the `export_title` title assignment
(uncaught `str(title)` failure, before the quit); then `exportAndFinish`. -/
def create_and_save_sankey (env : ExtEnv) (a : SankeyArgs) (edges : EdgeTable) :
    List Event × Except Err Plot :=
  let ev0 := acquireEvents env
  let driver := env.acquireRes
  let edges1 := sanitize edges
  if env.buildOk = false then
    (ev0, Except.error Err.buildError)
  else if a.export_title = true ∧ env.strTitleOk = false then
    (ev0 ++ [Event.build edges1], Except.error Err.strTitleError)
  else
    let r := exportAndFinish env a driver (staticExportPlot env a)
    (ev0 ++ [Event.build edges1] ++ r.1, r.2)

/-- Index of the last occurrence of `c` in `cs`, if any. -/
def rfindChar (cs : List Char) (c : Char) : Option Nat :=
  ((List.range cs.length).filter (fun i => cs.get? i == some c)).getLast?

/-- Embedding of POSIX `os.path.basename`: the part after the last `/`. -/
def pyBasename (p : String) : String :=
  String.mk ((p.toList.reverse.takeWhile (fun c => c != '/')).reverse)

/-- Root part of POSIX `os.path.splitext(p)`: drop the extension starting at
the last `.`, provided that dot lies after the last `/` and some character
strictly between them is not a dot (leading dots of the basename never start
an extension, so `.bashrc` and `./out` are unchanged). -/
def pySplitextRoot (p : String) : String :=
  let cs := p.toList
  match rfindChar cs '.' with
  | none => p
  | some d =>
    let s : Int := match rfindChar cs '/' with
      | some n => (n : Int)
      | none => -1
    if s < (d : Int) ∧
        ((List.range cs.length).any
          (fun i => decide (s < (i : Int) ∧ (i : Int) < (d : Int)
                              ∧ cs.get? i ≠ some '.'))) then
      String.mk (cs.take d)
    else p

/-- Embedding of POSIX `os.path.join` with two components. -/
def pyJoin (a b : String) : String :=
  if b.toList.head? == some '/' then b
  else if a = "" ∨ a.toList.getLast? == some '/' then a ++ b
  else a ++ "/" ++ b

/-- Per-sheet output base path of `create_sankeys_from_dict` (lines 96-99):
`os.path.join(output_dir, splitext(basename(file))[0] + ' ' + str(sheet))`. -/
def sheetFilename (file output_dir sheet : String) : String :=
  pyJoin output_dir (pySplitextRoot (pyBasename file) ++ " " ++ sheet)

/-- One iteration of the sheet loop of `create_sankeys_from_dict` (lines
90-108): build and export one sheet with `title = sheet_name`; on success the
plot is handed back for the combined page, on any exception the sheet name
and cause are logged and no plot is produced. `envFor` gives the external
outcomes for each sheet's call. -/
def sheetStep (envFor : String → ExtEnv) (base : SankeyArgs)
    (file output_dir : String) (p : String × EdgeTable) :
    List Event × Option Plot :=
  let fn := sheetFilename file output_dir p.1
  let r := create_and_save_sankey (envFor p.1)
    { base with filename := some fn, title := p.1 } p.2
  match r.2 with
  | Except.ok plot => (r.1, some plot)
  | Except.error e => (r.1 ++ [Event.logError p.1 e], none)

/-- Embedding of `create_sankeys_from_dict` (holoviews_sankey.py lines
87-118): iterate the named tables in order, isolating each sheet's failure;
then register the combined html page
`os.path.join(output_dir, splitext(basename(file))[0] + '.html')` with page
title `splitext(file)[0]`, arrange the accumulated plots in a one-column
stretch-width grid and show it; return `True`. Returns (events, accumulated
plots, return value). -/
def create_sankeys_from_dict (envFor : String → ExtEnv) (base : SankeyArgs)
    (df_dict : List (String × EdgeTable)) (file output_dir : String) :
    List Event × List Plot × Bool :=
  let folded := df_dict.foldl
    (fun acc p =>
      let s := sheetStep envFor base file output_dir p
      (acc.1 ++ s.1, acc.2 ++ s.2.toList))
    ([], [])
  let pageFile := pyJoin output_dir (pySplitextRoot (pyBasename file) ++ ".html")
  let pageTitle := pySplitextRoot file
  (folded.1 ++ [Event.outputFile pageFile pageTitle,
                Event.page folded.2 1 "stretch_width"],
   folded.2, true)

/-- Embedding of `main` in `__main__.py` (line 23): after parsing arguments
and reading the spreadsheet, it calls
`create_sankeys_from_dict(df_dict, output_dir, file_load, **args)` — note the
call is positional against the signature
`create_sankeys_from_dict(df_dict, file, output_dir, **kwargs)`, so the
parsed output directory is passed as `file` and the spreadsheet path as
`output_dir`. -/
def main (envFor : String → ExtEnv) (base : SankeyArgs)
    (df_dict : List (String × EdgeTable)) (file_load output_dir : String) :
    List Event × List Plot × Bool :=
  create_sankeys_from_dict envFor base df_dict output_dir file_load

/-- Whether an event is a webdriver acquisition. -/
def Event.isAcquire : Event → Bool
  | Event.acquire _ => true
  | _ => false

/-- Whether an event is a webdriver release. -/
def Event.isQuit : Event → Bool
  | Event.quit _ => true
  | _ => false

/-- Whether an event writes to, or creates a node in, the file system:
directory creation, png export, svg export, or registration of an html
output file. -/
def Event.isFileWrite : Event → Bool
  | Event.mkdirFor _ => true
  | Event.exportPng _ _ _ => true
  | Event.exportSvg _ _ _ => true
  | Event.outputFile _ _ => true
  | _ => false

/-- Environment in which every external call succeeds, the acquired webdriver
handle is `0`, and the renderer-produced plot has an empty title. -/
def envOk : ExtEnv :=
  { acquireRes := some 0, buildOk := true, strTitleOk := true,
    dirExists := true, mkdirOk := true, pngOk := true, svgOk := true,
    outputFileOk := true, initialTitle := "" }

/-- Default arguments of `create_and_save_sankey`, mirroring the Python
defaults of lines 121-127. -/
def defaultArgs : SankeyArgs :=
  { filename := none, title := "", title_html := "", edge_color_index := "To",
    show_plot := false, palette := none, decimals := some 2, unit := some "",
    width := 1400, height := 600, fontsize := 11,
    label_text_font_size := "17pt", node_width := 45, node_padding := 10,
    export_title := false, toolbar_location := none, title_max_chars := none }

/-- Small concrete edge table with no zero cells. -/
def exampleTable : EdgeTable :=
  [[Cell.str "A", Cell.str "B", Cell.num 2],
   [Cell.str "B", Cell.str "C", Cell.num 1]]

/-- Unfolding of `create_and_save_sankey` when the build succeeds and the
`export_title` title assignment does not raise. -/
theorem create_and_save_sankey_unfold (env : ExtEnv) (a : SankeyArgs)
    (edges : EdgeTable) (hb : env.buildOk = true)
    (hgate : a.export_title = true → env.strTitleOk = true) :
    create_and_save_sankey env a edges =
      (acquireEvents env ++ [Event.build (sanitize edges)]
         ++ (exportAndFinish env a env.acquireRes (staticExportPlot env a)).1,
       (exportAndFinish env a env.acquireRes (staticExportPlot env a)).2) := by
  by_cases het : a.export_title = true
  · simp [create_and_save_sankey, hb, het, hgate het]
  · simp [create_and_save_sankey, hb, het]

/-- The export-and-finish stage never acquires a webdriver. -/
theorem exportAndFinish_countP_acquire (env : ExtEnv) (a : SankeyArgs)
    (driver : Option Nat) (p2 : Plot) :
    (exportAndFinish env a driver p2).1.countP Event.isAcquire = 0 := by
  cases hf : a.filename <;> cases driver <;>
    simp only [exportAndFinish, hf, quitWebdriverEvents] <;>
    split_ifs <;>
    simp [Event.isAcquire, List.countP_append, List.countP_cons]

/-- Every png-export event of the export stage carries the webdriver handle
that was passed in. -/
theorem exportAndFinish_png_driver (env : ExtEnv) (a : SankeyArgs)
    (driver : Option Nat) (p2 : Plot) (f t : String) (d : Option Nat) :
    Event.exportPng f t d ∈ (exportAndFinish env a driver p2).1 → d = driver := by
  cases hf : a.filename <;> cases driver <;>
    simp only [exportAndFinish, hf, quitWebdriverEvents] <;>
    split_ifs <;>
    simp_all

/-- Every svg-export event of the export stage carries the webdriver handle
that was passed in. -/
theorem exportAndFinish_svg_driver (env : ExtEnv) (a : SankeyArgs)
    (driver : Option Nat) (p2 : Plot) (f t : String) (d : Option Nat) :
    Event.exportSvg f t d ∈ (exportAndFinish env a driver p2).1 → d = driver := by
  cases hf : a.filename <;> cases driver <;>
    simp only [exportAndFinish, hf, quitWebdriverEvents] <;>
    split_ifs <;>
    simp_all

/-- When a sheet's build-and-export raises, the loop body of
`create_sankeys_from_dict` emits a log event naming that sheet. -/
theorem sheetStep_none_logs (envFor : String → ExtEnv) (base : SankeyArgs)
    (file output_dir : String) (p : String × EdgeTable) :
    (sheetStep envFor base file output_dir p).2 = none →
    ∃ e, Event.logError p.1 e ∈ (sheetStep envFor base file output_dir p).1 := by
  unfold sheetStep
  cases h : (create_and_save_sankey (envFor p.1)
      { base with filename := some (sheetFilename file output_dir p.1),
                  title := p.1 } p.2).2 <;>
    simp [h]

/-- Closed form of the sheet loop of `create_sankeys_from_dict`: the batch
trace is the concatenation of every sheet's trace in order, and the
accumulated plots are exactly the successful sheets' plots in order. -/
theorem sheetFold_eq (f : String × EdgeTable → List Event × Option Plot) :
    ∀ (l : List (String × EdgeTable)) (ev : List Event) (pl : List Plot),
      (l.foldl (fun acc p => (acc.1 ++ (f p).1, acc.2 ++ (f p).2.toList))
          (ev, pl))
        = (ev ++ (l.map (fun p => (f p).1)).flatten,
           pl ++ l.filterMap (fun p => (f p).2)) := by
  intro l
  induction l with
  | nil => intro ev pl; simp
  | cons hd tl ih =>
    intro ev pl
    rw [List.foldl_cons, ih]
    cases h : (f hd).2 <;> simp [h, List.append_assoc]

/-- Closed form of `create_sankeys_from_dict`: the batch processes every
sheet in order, appends the combined-page registration and the grid display
of the accumulated plots, and returns `True`. -/
theorem create_sankeys_from_dict_eq (envFor : String → ExtEnv)
    (base : SankeyArgs) (df_dict : List (String × EdgeTable))
    (file output_dir : String) :
    create_sankeys_from_dict envFor base df_dict file output_dir =
      ((df_dict.map (fun p => (sheetStep envFor base file output_dir p).1)).flatten
         ++ [Event.outputFile
               (pyJoin output_dir (pySplitextRoot (pyBasename file) ++ ".html"))
               (pySplitextRoot file),
             Event.page
               (df_dict.filterMap
                 (fun p => (sheetStep envFor base file output_dir p).2))
               1 "stretch_width"],
       df_dict.filterMap (fun p => (sheetStep envFor base file output_dir p).2),
       true) := by
  simp only [create_sankeys_from_dict]
  rw [sheetFold_eq (sheetStep envFor base file output_dir)]
  simp

/-- C2: for every collection of named edge tables, `create_sankeys_from_dict`
returns `True`; its combined page contains exactly the plots of the sheets
whose build-and-export succeeded, in order (failed sheets are omitted); for
every sheet whose build or export raised, a log event naming that sheet is
emitted; and every sheet's full trace occurs in the batch trace (processing
continues past failures, which are never re-raised). -/
theorem create_sankeys_from_dict_isolates_sheet_failures
    (envFor : String → ExtEnv) (base : SankeyArgs)
    (df_dict : List (String × EdgeTable)) (file output_dir : String) :
    (create_sankeys_from_dict envFor base df_dict file output_dir).2.2 = true ∧
    (create_sankeys_from_dict envFor base df_dict file output_dir).2.1
      = df_dict.filterMap (fun p => (sheetStep envFor base file output_dir p).2) ∧
    (∀ p ∈ df_dict, (sheetStep envFor base file output_dir p).2 = none →
        ∃ e, Event.logError p.1 e
          ∈ (create_sankeys_from_dict envFor base df_dict file output_dir).1) ∧
    (∀ p ∈ df_dict, ∀ x ∈ (sheetStep envFor base file output_dir p).1,
        x ∈ (create_sankeys_from_dict envFor base df_dict file output_dir).1) ∧
    Event.page
        (df_dict.filterMap (fun p => (sheetStep envFor base file output_dir p).2))
        1 "stretch_width"
      ∈ (create_sankeys_from_dict envFor base df_dict file output_dir).1 := by
  rw [create_sankeys_from_dict_eq]
  refine ⟨rfl, rfl, ?_, ?_, by simp⟩
  · intro p hp hnone
    obtain ⟨e, he⟩ := sheetStep_none_logs envFor base file output_dir p hnone
    refine ⟨e, ?_⟩
    simp only [List.mem_append]
    exact Or.inl (List.mem_flatten.mpr
      ⟨(sheetStep envFor base file output_dir p).1,
       List.mem_map.mpr ⟨p, hp, rfl⟩, he⟩)
  · intro p hp x hx
    simp only [List.mem_append]
    exact Or.inl (List.mem_flatten.mpr
      ⟨(sheetStep envFor base file output_dir p).1,
       List.mem_map.mpr ⟨p, hp, rfl⟩, hx⟩)

/-- Environment in which the HoloViews build raises (and webdriver
acquisition succeeds with handle `0`). -/
def envBuildFail : ExtEnv := { envOk with buildOk := false }

/-- Witness for C2: in a two-sheet batch where sheet `"A"`'s build raises and
sheet `"B"` succeeds, the batch still returns `True`, an error is logged for
`"A"`, and the combined page holds exactly the one successful plot. -/
theorem create_sankeys_from_dict_isolates_sheet_failures_witness :
    (create_sankeys_from_dict
        (fun s => if s = "A" then envBuildFail else envOk) defaultArgs
        [("A", exampleTable), ("B", exampleTable)] "f.xlsx" "out").2.2 = true ∧
    (∃ e, Event.logError "A" e
      ∈ (create_sankeys_from_dict
          (fun s => if s = "A" then envBuildFail else envOk) defaultArgs
          [("A", exampleTable), ("B", exampleTable)] "f.xlsx" "out").1) ∧
    (create_sankeys_from_dict
        (fun s => if s = "A" then envBuildFail else envOk) defaultArgs
        [("A", exampleTable), ("B", exampleTable)] "f.xlsx" "out").2.1.length
      = 1 := by
  refine ⟨(create_sankeys_from_dict_isolates_sheet_failures
      (fun s => if s = "A" then envBuildFail else envOk) defaultArgs
      [("A", exampleTable), ("B", exampleTable)] "f.xlsx" "out").1,
    (create_sankeys_from_dict_isolates_sheet_failures
      (fun s => if s = "A" then envBuildFail else envOk) defaultArgs
      [("A", exampleTable), ("B", exampleTable)] "f.xlsx" "out").2.2.1
      ("A", exampleTable) (by decide) (by decide), ?_⟩
  rw [(create_sankeys_from_dict_isolates_sheet_failures
      (fun s => if s = "A" then envBuildFail else envOk) defaultArgs
      [("A", exampleTable), ("B", exampleTable)] "f.xlsx" "out").2.1]
  decide

/-- C9: for every batch in which zero sheets succeed, the combined html page
is still registered at its usual path and rendered as an empty single-column
stretch-width grid, the plot accumulator is empty, and the batch still
returns `True`. -/
theorem combined_page_still_made_on_zero_successes
    (envFor : String → ExtEnv) (base : SankeyArgs)
    (df_dict : List (String × EdgeTable)) (file output_dir : String)
    (hall : ∀ p ∈ df_dict, (sheetStep envFor base file output_dir p).2 = none) :
    (create_sankeys_from_dict envFor base df_dict file output_dir).2.1 = [] ∧
    (create_sankeys_from_dict envFor base df_dict file output_dir).2.2 = true ∧
    Event.outputFile
        (pyJoin output_dir (pySplitextRoot (pyBasename file) ++ ".html"))
        (pySplitextRoot file)
      ∈ (create_sankeys_from_dict envFor base df_dict file output_dir).1 ∧
    Event.page [] 1 "stretch_width"
      ∈ (create_sankeys_from_dict envFor base df_dict file output_dir).1 := by
  have hnil : df_dict.filterMap
      (fun p => (sheetStep envFor base file output_dir p).2) = [] := by
    rw [List.filterMap_eq_nil_iff]
    exact hall
  rw [create_sankeys_from_dict_eq, hnil]
  refine ⟨rfl, rfl, by simp, by simp⟩

/-- Witness for C9: in a two-sheet batch where both builds raise, the batch
registers and renders an empty combined page and returns `True`. -/
theorem combined_page_still_made_on_zero_successes_witness :
    (create_sankeys_from_dict (fun _ => envBuildFail) defaultArgs
        [("A", exampleTable), ("B", exampleTable)] "f.xlsx" "out").2.1 = [] ∧
    (create_sankeys_from_dict (fun _ => envBuildFail) defaultArgs
        [("A", exampleTable), ("B", exampleTable)] "f.xlsx" "out").2.2 = true ∧
    Event.outputFile "out/f.html" "f"
      ∈ (create_sankeys_from_dict (fun _ => envBuildFail) defaultArgs
          [("A", exampleTable), ("B", exampleTable)] "f.xlsx" "out").1 ∧
    Event.page [] 1 "stretch_width"
      ∈ (create_sankeys_from_dict (fun _ => envBuildFail) defaultArgs
          [("A", exampleTable), ("B", exampleTable)] "f.xlsx" "out").1 := by
  have h := combined_page_still_made_on_zero_successes (fun _ => envBuildFail)
    defaultArgs [("A", exampleTable), ("B", exampleTable)] "f.xlsx" "out"
    (by decide)
  refine ⟨h.1, h.2.1, ?_, h.2.2.2⟩
  have hfile : pyJoin "out" (pySplitextRoot (pyBasename "f.xlsx") ++ ".html")
      = "out/f.html" := by decide
  have htitle : pySplitextRoot "f.xlsx" = "f" := by decide
  have := h.2.2.1
  rw [hfile, htitle] at this
  exact this

/-- C1 evaluated at the failing input: when webdriver acquisition succeeds
(non-null handle `0`) and the sheet's diagram construction then raises, the
trace of `create_and_save_sankey` contains the acquisition but no `quit`
event at all — the non-null handle is never released, because the release on
line 251 is not in a `finally` block. The exception propagates to the
caller. -/
theorem webdriver_leaked_when_build_raises :
    (create_and_save_sankey envBuildFail defaultArgs exampleTable).1
      = [Event.acquire 0] ∧
    (create_and_save_sankey envBuildFail defaultArgs exampleTable).1.countP
        (fun e => e.isQuit) = 0 ∧
    (create_and_save_sankey envBuildFail defaultArgs exampleTable).2
      = Except.error Err.buildError := by
  exact ⟨by decide, by decide, by decide⟩

/-- Counterexample for C4: in a batch over two named tables in which every
external call succeeds, the webdriver is acquired twice — once per sheet,
inside `create_and_save_sankey` — not exactly once per batch. -/
theorem webdriver_not_acquired_once_per_batch :
    (create_sankeys_from_dict (fun _ => envOk) defaultArgs
        [("A", exampleTable), ("B", exampleTable)] "f.xlsx" "out").1.countP Event.isAcquire = 2 ∧
    ¬ (create_sankeys_from_dict (fun _ => envOk) defaultArgs
        [("A", exampleTable), ("B", exampleTable)] "f.xlsx" "out").1.countP Event.isAcquire = 1 := by
  exact ⟨by decide, by decide⟩

/-- C4 (amended): the webdriver handle is acquired once per sheet, not once
per batch: each call of `create_and_save_sankey` whose acquisition returns a
non-null handle acquires it exactly once, as its very first external call
(hence before any of that sheet's exports), and both the raster and the
vector export of that sheet are passed that same handle by reference. -/
theorem webdriver_acquired_once_per_sheet (env : ExtEnv) (a : SankeyArgs)
    (edges : EdgeTable) (h : Nat) (hacq : env.acquireRes = some h) :
    (create_and_save_sankey env a edges).1.head? = some (Event.acquire h) ∧
    (create_and_save_sankey env a edges).1.countP Event.isAcquire = 1 ∧
    (∀ f t d, Event.exportPng f t d ∈ (create_and_save_sankey env a edges).1
      → d = some h) ∧
    (∀ f t d, Event.exportSvg f t d ∈ (create_and_save_sankey env a edges).1
      → d = some h) := by
  simp only [create_and_save_sankey, acquireEvents, hacq]
  split_ifs with h1 h2
  · exact ⟨rfl, by simp [Event.isAcquire], by simp, by simp⟩
  · exact ⟨rfl, by simp [Event.isAcquire], by simp, by simp⟩
  · refine ⟨by simp, ?_, ?_, ?_⟩
    · simp only [List.cons_append, List.nil_append, List.countP_cons,
        List.countP_append, exportAndFinish_countP_acquire]
      simp [Event.isAcquire]
    · intro f t d hmem
      simp only [List.cons_append, List.nil_append, List.mem_cons,
        List.mem_append] at hmem
      rcases hmem with h' | h' | h'
      · exact absurd h' (by simp)
      · exact absurd h' (by simp)
      · exact exportAndFinish_png_driver env a (some h)
          (staticExportPlot env a) f t d h'
    · intro f t d hmem
      simp only [List.cons_append, List.nil_append, List.mem_cons,
        List.mem_append] at hmem
      rcases hmem with h' | h' | h'
      · exact absurd h' (by simp)
      · exact absurd h' (by simp)
      · exact exportAndFinish_svg_driver env a (some h)
          (staticExportPlot env a) f t d h'

/-- Witness for C4 (amended): with handle `7` and every external call
succeeding, the sheet's trace starts with the acquisition, acquires exactly
once, and the handle cannot appear in an export event with a different
driver value. -/
theorem webdriver_acquired_once_per_sheet_witness :
    (create_and_save_sankey { envOk with acquireRes := some 7 }
        { defaultArgs with filename := some "out/x" } exampleTable).1.head?
      = some (Event.acquire 7) ∧
    (create_and_save_sankey { envOk with acquireRes := some 7 }
        { defaultArgs with filename := some "out/x" } exampleTable).1.countP Event.isAcquire = 1 := by
  have h := webdriver_acquired_once_per_sheet
    { envOk with acquireRes := some 7 }
    { defaultArgs with filename := some "out/x" } exampleTable 7 rfl
  exact ⟨h.1, h.2.1⟩

/-- C6: with `export_title=True` and `title_max_chars=m`, whenever the build
succeeds and the directory check, both static exports and the page
registration succeed, the plot title recorded at the raster (png) export and
at the vector (svg) export is the first `m` characters of `str(title)`;
afterwards the returned plot (used for the interactive page) carries the full
untruncated `str(title)` and the responsive `stretch_width` sizing mode. -/
theorem export_title_truncated_then_restored (env : ExtEnv) (a : SankeyArgs)
    (edges : EdgeTable) (fn : String) (m : Nat)
    (hfn : a.filename = some fn) (het : a.export_title = true)
    (hm : a.title_max_chars = some m) (hb : env.buildOk = true)
    (hst : env.strTitleOk = true) (hd : env.dirExists = true)
    (hp : env.pngOk = true) (hs : env.svgOk = true)
    (ho : env.outputFileOk = true) :
    Event.exportPng (fn ++ ".png") (a.title.take m) env.acquireRes
        ∈ (create_and_save_sankey env a edges).1 ∧
    Event.exportSvg (fn ++ ".svg") (a.title.take m) env.acquireRes
        ∈ (create_and_save_sankey env a edges).1 ∧
    ∃ p, (create_and_save_sankey env a edges).2 = Except.ok p ∧
      p.titleText = a.title ∧ p.sizingMode = some "stretch_width" := by
  rw [create_and_save_sankey_unfold env a edges hb (fun _ => hst)]
  simp [exportAndFinish, staticExportPlot, hfn, het, hm, hst, hd, hp, hs, ho]

/-- Witness for C6: handle `0`, a 20-character title truncated to its first
10 characters for the static exports, full title and stretch-width sizing on
the returned plot. -/
theorem export_title_truncated_then_restored_witness :
    Event.exportPng "out/x.png" "ABCDEFGHIJ" (some 0)
        ∈ (create_and_save_sankey envOk
            { defaultArgs with filename := some "out/x",
                               title := "ABCDEFGHIJKLMNOPQRST",
                               export_title := true,
                               title_max_chars := some 10 } exampleTable).1 ∧
    Event.exportSvg "out/x.svg" "ABCDEFGHIJ" (some 0)
        ∈ (create_and_save_sankey envOk
            { defaultArgs with filename := some "out/x",
                               title := "ABCDEFGHIJKLMNOPQRST",
                               export_title := true,
                               title_max_chars := some 10 } exampleTable).1 ∧
    ∃ p, (create_and_save_sankey envOk
            { defaultArgs with filename := some "out/x",
                               title := "ABCDEFGHIJKLMNOPQRST",
                               export_title := true,
                               title_max_chars := some 10 } exampleTable).2
          = Except.ok p ∧
      p.titleText = "ABCDEFGHIJKLMNOPQRST" ∧
      p.sizingMode = some "stretch_width" := by
  have h := export_title_truncated_then_restored envOk
    { defaultArgs with filename := some "out/x",
                       title := "ABCDEFGHIJKLMNOPQRST",
                       export_title := true, title_max_chars := some 10 }
    exampleTable "out/x" 10 rfl rfl rfl rfl rfl rfl rfl rfl rfl
  have htake : "ABCDEFGHIJKLMNOPQRST".take 10 = "ABCDEFGHIJ" := by decide
  rw [htake] at h
  exact h

/-- C7: within one sheet's export, a raster-export failure is caught and
logged and does not prevent the vector export or the page registration, and a
vector-export failure likewise does not prevent the page registration (the
call still returns the plot); whereas a failure while creating the output
directory, while setting the final title, or while registering the
interactive page is not caught there: it escapes `create_and_save_sankey`
(into the per-sheet guard of the batch), aborting this sheet's export. -/
theorem export_step_fault_isolation :
    (∀ (env : ExtEnv) (a : SankeyArgs) (edges : EdgeTable) (fn : String),
      a.filename = some fn → env.buildOk = true → env.strTitleOk = true →
      env.dirExists = true → env.outputFileOk = true →
      env.pngOk = false → env.svgOk = true →
      Event.pngFailLogged ∈ (create_and_save_sankey env a edges).1 ∧
      (∃ t d, Event.exportSvg (fn ++ ".svg") t d
          ∈ (create_and_save_sankey env a edges).1) ∧
      (∃ t, Event.outputFile (fn ++ ".html") t
          ∈ (create_and_save_sankey env a edges).1) ∧
      (∃ p, (create_and_save_sankey env a edges).2 = Except.ok p)) ∧
    (∀ (env : ExtEnv) (a : SankeyArgs) (edges : EdgeTable) (fn : String),
      a.filename = some fn → env.buildOk = true → env.strTitleOk = true →
      env.dirExists = true → env.outputFileOk = true →
      env.pngOk = true → env.svgOk = false →
      (∃ t d, Event.exportPng (fn ++ ".png") t d
          ∈ (create_and_save_sankey env a edges).1) ∧
      Event.svgFailLogged ∈ (create_and_save_sankey env a edges).1 ∧
      (∃ t, Event.outputFile (fn ++ ".html") t
          ∈ (create_and_save_sankey env a edges).1) ∧
      (∃ p, (create_and_save_sankey env a edges).2 = Except.ok p)) ∧
    (∀ (env : ExtEnv) (a : SankeyArgs) (edges : EdgeTable) (fn : String),
      a.filename = some fn → env.buildOk = true →
      (a.export_title = true → env.strTitleOk = true) →
      env.dirExists = false → env.mkdirOk = false →
      (create_and_save_sankey env a edges).2 = Except.error Err.mkdirError ∧
      (create_and_save_sankey env a edges).1.countP Event.isFileWrite = 0) ∧
    (∀ (env : ExtEnv) (a : SankeyArgs) (edges : EdgeTable) (fn : String),
      a.filename = some fn → env.buildOk = true → a.export_title = false →
      env.strTitleOk = false → env.dirExists = true →
      (create_and_save_sankey env a edges).2 = Except.error Err.strTitleError ∧
      (∀ f t, Event.outputFile f t ∉ (create_and_save_sankey env a edges).1)) ∧
    (∀ (env : ExtEnv) (a : SankeyArgs) (edges : EdgeTable) (fn : String),
      a.filename = some fn → env.buildOk = true → env.strTitleOk = true →
      env.dirExists = true → env.outputFileOk = false →
      (create_and_save_sankey env a edges).2
        = Except.error Err.outputFileError ∧
      (∀ f t, Event.outputFile f t ∉ (create_and_save_sankey env a edges).1)) := by
  refine ⟨?_, ?_, ?_, ?_, ?_⟩
  · intro env a edges fn hfn hb hst hd ho hp hs
    rw [create_and_save_sankey_unfold env a edges hb (fun _ => hst)]
    simp [exportAndFinish, hfn, hst, hd, ho, hp, hs]
    exact ⟨⟨(staticExportPlot env a).titleText, env.acquireRes, by simp⟩,
           ⟨if a.title_html = "" then a.title else a.title_html, by simp⟩⟩
  · intro env a edges fn hfn hb hst hd ho hp hs
    rw [create_and_save_sankey_unfold env a edges hb (fun _ => hst)]
    simp [exportAndFinish, hfn, hst, hd, ho, hp, hs]
    exact ⟨⟨(staticExportPlot env a).titleText, env.acquireRes, by simp⟩,
           ⟨if a.title_html = "" then a.title else a.title_html, by simp⟩⟩
  · intro env a edges fn hfn hb hgate hd hmk
    rw [create_and_save_sankey_unfold env a edges hb hgate]
    cases hacq : env.acquireRes <;>
      simp [exportAndFinish, hfn, hd, hmk, acquireEvents, hacq,
        Event.isFileWrite, List.countP_append, List.countP_cons]
  · intro env a edges fn hfn hb het hst hd
    rw [create_and_save_sankey_unfold env a edges hb (by simp [het])]
    constructor
    · simp [exportAndFinish, hfn, hst, hd]
    · intro f t hmem
      cases hacq : env.acquireRes <;>
        cases hp : env.pngOk <;> cases hs : env.svgOk <;>
        simp [exportAndFinish, hfn, hst, hd, acquireEvents, hacq, hp, hs,
          quitWebdriverEvents] at hmem
  · intro env a edges fn hfn hb hst hd ho
    rw [create_and_save_sankey_unfold env a edges hb (fun _ => hst)]
    constructor
    · simp [exportAndFinish, hfn, hst, hd, ho]
    · intro f t hmem
      cases hacq : env.acquireRes <;>
        cases hp : env.pngOk <;> cases hs : env.svgOk <;>
        simp [exportAndFinish, hfn, hst, hd, ho, acquireEvents, hacq, hp, hs,
          quitWebdriverEvents] at hmem

/-- Witness for C7: concrete environments exercising all five parts — a
failed png export still yields a returned plot and a page registration; a
failed svg export likewise; a directory-creation failure aborts with
`mkdirError` and no file writes; a final-title failure aborts with
`strTitleError`; a page-registration failure aborts with
`outputFileError`. -/
theorem export_step_fault_isolation_witness :
    ((∃ p, (create_and_save_sankey { envOk with pngOk := false }
        { defaultArgs with filename := some "out/x" } exampleTable).2
        = Except.ok p) ∧
     (∃ t, Event.outputFile "out/x.html" t
        ∈ (create_and_save_sankey { envOk with pngOk := false }
            { defaultArgs with filename := some "out/x" } exampleTable).1)) ∧
    ((∃ p, (create_and_save_sankey { envOk with svgOk := false }
        { defaultArgs with filename := some "out/x" } exampleTable).2
        = Except.ok p) ∧
     Event.svgFailLogged
        ∈ (create_and_save_sankey { envOk with svgOk := false }
            { defaultArgs with filename := some "out/x" } exampleTable).1) ∧
    (create_and_save_sankey { envOk with dirExists := false, mkdirOk := false }
        { defaultArgs with filename := some "out/x" } exampleTable).2
      = Except.error Err.mkdirError ∧
    (create_and_save_sankey { envOk with strTitleOk := false }
        { defaultArgs with filename := some "out/x" } exampleTable).2
      = Except.error Err.strTitleError ∧
    (create_and_save_sankey { envOk with outputFileOk := false }
        { defaultArgs with filename := some "out/x" } exampleTable).2
      = Except.error Err.outputFileError := by
  refine ⟨⟨?_, ?_⟩, ⟨?_, ?_⟩, ?_, ?_, ?_⟩
  · exact (export_step_fault_isolation.1 { envOk with pngOk := false }
      { defaultArgs with filename := some "out/x" } exampleTable "out/x"
      rfl rfl rfl rfl rfl rfl rfl).2.2.2
  · exact (export_step_fault_isolation.1 { envOk with pngOk := false }
      { defaultArgs with filename := some "out/x" } exampleTable "out/x"
      rfl rfl rfl rfl rfl rfl rfl).2.2.1
  · exact (export_step_fault_isolation.2.1 { envOk with svgOk := false }
      { defaultArgs with filename := some "out/x" } exampleTable "out/x"
      rfl rfl rfl rfl rfl rfl rfl).2.2.2
  · exact (export_step_fault_isolation.2.1 { envOk with svgOk := false }
      { defaultArgs with filename := some "out/x" } exampleTable "out/x"
      rfl rfl rfl rfl rfl rfl rfl).2.1
  · exact (export_step_fault_isolation.2.2.1
      { envOk with dirExists := false, mkdirOk := false }
      { defaultArgs with filename := some "out/x" } exampleTable "out/x"
      rfl rfl (fun _ => rfl) rfl rfl).1
  · exact (export_step_fault_isolation.2.2.2.1
      { envOk with strTitleOk := false }
      { defaultArgs with filename := some "out/x" } exampleTable "out/x"
      rfl rfl rfl rfl rfl).1
  · exact (export_step_fault_isolation.2.2.2.2
      { envOk with outputFileOk := false }
      { defaultArgs with filename := some "out/x" } exampleTable "out/x"
      rfl rfl rfl rfl rfl).1

/-- C10: calling `create_and_save_sankey` with `filename=None` performs no
file-system write at all — no png export, no svg export, no html
registration, no directory creation — yet the diagram is still built from
the sanitized table and the call returns the plot with the full title and
stretch-width sizing applied. -/
theorem no_file_writes_without_filename (env : ExtEnv) (a : SankeyArgs)
    (edges : EdgeTable) (hfn : a.filename = none) (hb : env.buildOk = true)
    (hst : env.strTitleOk = true) :
    (create_and_save_sankey env a edges).1.countP Event.isFileWrite = 0 ∧
    Event.build (sanitize edges) ∈ (create_and_save_sankey env a edges).1 ∧
    ∃ p, (create_and_save_sankey env a edges).2 = Except.ok p ∧
      p.titleText = a.title ∧ p.sizingMode = some "stretch_width" := by
  rw [create_and_save_sankey_unfold env a edges hb (fun _ => hst)]
  cases hacq : env.acquireRes <;> cases hsp : a.show_plot <;>
    simp [exportAndFinish, hfn, hst, acquireEvents, hacq, hsp,
      quitWebdriverEvents, Event.isFileWrite, List.countP_append,
      List.countP_cons]

/-- Witness for C10: with every external call succeeding and
`filename=None`, no file-write event occurs, the build still happens, and
the returned plot carries the full title and stretch-width sizing. -/
theorem no_file_writes_without_filename_witness :
    (create_and_save_sankey envOk { defaultArgs with title := "T" }
        exampleTable).1.countP Event.isFileWrite = 0 ∧
    Event.build (sanitize exampleTable)
      ∈ (create_and_save_sankey envOk { defaultArgs with title := "T" }
          exampleTable).1 ∧
    ∃ p, (create_and_save_sankey envOk { defaultArgs with title := "T" }
          exampleTable).2 = Except.ok p ∧
      p.titleText = "T" ∧ p.sizingMode = some "stretch_width" := by
  exact no_file_writes_without_filename envOk
    { defaultArgs with title := "T" } exampleTable rfl rfl rfl

/-- Association of a file-write event with the path it writes to. -/
def Event.writePath : Event → Option String
  | Event.mkdirFor f => some f
  | Event.exportPng f _ _ => some f
  | Event.exportSvg f _ _ => some f
  | Event.outputFile f _ => some f
  | _ => none

/-- C8 evaluated at the failing input: invoking the CLI entry point `main`
with spreadsheet `Sankey.xlsx`, output directory `./out` and one sheet
`Example A` (all external calls succeeding), every path written or
registered lies under `Sankey.xlsx/` with base name `out Example A`, and the
combined page goes to `Sankey.xlsx/out.html` — not, as documented, under
`./out` with base name `Sankey Example A` and combined page
`./out/Sankey.html` — because `main` passes `output_dir` and `file_load`
positionally into the `file` and `output_dir` parameters of
`create_sankeys_from_dict`, in swapped order. -/
theorem cli_entry_point_swaps_output_paths :
    (main (fun _ => envOk) defaultArgs [("Example A", exampleTable)]
        "Sankey.xlsx" "./out").1.filterMap Event.writePath
      = ["Sankey.xlsx/out Example A.png", "Sankey.xlsx/out Example A.svg",
         "Sankey.xlsx/out Example A.html", "Sankey.xlsx/out.html"] ∧
    "./out/Sankey Example A.png"
      ∉ (main (fun _ => envOk) defaultArgs [("Example A", exampleTable)]
          "Sankey.xlsx" "./out").1.filterMap Event.writePath ∧
    "./out/Sankey.html"
      ∉ (main (fun _ => envOk) defaultArgs [("Example A", exampleTable)]
          "Sankey.xlsx" "./out").1.filterMap Event.writePath := by
  exact ⟨by decide, by decide, by decide⟩

end HoloviewsSankey
